import Mathlib

/-!
Verification of the travelapi combined-search orchestration layer.

Shallow embedding of:
  * `app/flight_services/services/combined_service.py` (`combined_search`)
  * `app/flight_services/clients/bdfare_client.py` (`fetch_bdfare_flights`,
    `fallback_to_requests`)
  * `app/flight_services/routes/combined/combined_search.py`
    (FlyHub token cache, `fetch_flyhub_flights`, `authenticate_flyhub`)
  * `app/flight_services/routes/bdfare/search.py` (`search_flights`)

Modules imported by `combined_service.py` but absent from the repository
snapshot (`flyhub_client.fetch_flyhub_flights`,
`flyhub_adapter.convert_bdfare_to_flyhub`,
`combined_search.format_flight_data_with_ids` under adapters) are modelled
from the spec where a claim needs them; such definitions say so in their
doc comment.
-/

namespace TravelApi

/-- Python truthiness of an optional string field obtained via `dict.get`:
`None` (missing key) and the empty string are falsy, everything else truthy.
Used for the `if not source:` style checks in `combined_search`. -/
def truthy : Option String → Bool
  | none => false
  | some s => !s.isEmpty

/-- One unified flight offer as produced by the response-formatting adapter:
an identifier plus the supplier it came from. -/
structure Offer where
  offerId : String
  sourceSupplier : String
deriving Repr, DecidableEq

/-- The payload of `combined_search` after `payload.dict()`: the three keys
the service reads.  The `request` value is opaque to the service (it is only
forwarded), so it is kept as an optional blob. -/
structure Payload where
  source : Option String
  pointOfSale : Option String
  request : Option String
deriving Repr, DecidableEq

/-- The result dict built at the end of `combined_search`
(`page`, `size`, `total_flights`, `flights`). -/
structure SearchResult where
  page : Int
  size : Int
  total_flights : Nat
  flights : List Offer
deriving Repr, DecidableEq

/-- Errors with which `combined_search` can terminate.  `http` is a raised
`HTTPException (status_code, detail)`.  `allSuppliersFailed` is the error the
spec prescribes for the everyone-failed case; it exists in this type so that
the spec claim can be stated, and the embedding of the code never produces
it. -/
inductive SearchErr where
  | http (status : Int) (detail : String)
  | allSuppliersFailed (details : List String)
deriving Repr, DecidableEq

/-- Python list slicing `l[start:stop]` for integer bounds: negative bounds
count from the end, then both are clamped to `[0, len l]`, and the half-open
window is taken. -/
def pythonSlice {α : Type} (l : List α) (start stop : Int) : List α :=
  let n : Int := l.length
  let s : Int := if start < 0 then max (n + start) 0 else min start n
  let e : Int := if stop < 0 then max (n + stop) 0 else min stop n
  (l.take e.toNat).drop s.toNat

/-- The pagination step of `combined_search`
(`total_flights = len(...); start = (page-1)*size; end = start+size;
paginated = flights[start:end]`) applied to the merged offer sequence. -/
def paginateResult (merged : List Offer) (page size : Int) : SearchResult :=
  let start := (page - 1) * size
  { page := page
    size := size
    total_flights := merged.length
    flights := pythonSlice merged start (start + size) }

/-- For nonnegative bounds, a Python slice is drop-then-take. -/
theorem pythonSlice_nonneg {α : Type} (l : List α) (start k : Int)
    (hs : 0 ≤ start) (hk : 0 ≤ k) :
    pythonSlice l start (start + k) = (l.drop start.toNat).take k.toNat := by
  unfold pythonSlice
  have hsk : 0 ≤ start + k := by omega
  simp only [if_neg (by omega : ¬ start < 0), if_neg (by omega : ¬ start + k < 0)]
  rw [List.drop_take]
  rcases le_or_lt start (l.length : Int) with hle | hgt
  · rcases le_or_lt (start + k) (l.length : Int) with hle2 | hgt2
    · have h1 : (min (start + k) (l.length : Int)).toNat = start.toNat + k.toNat := by
        omega
      have h2 : (min start (l.length : Int)).toNat = start.toNat := by omega
      rw [h1, h2]
      congr 1
      omega
    · have h1 : (min (start + k) (l.length : Int)).toNat = l.length := by omega
      have h2 : (min start (l.length : Int)).toNat = start.toNat := by omega
      rw [h1, h2]
      apply List.take_eq_take.mpr
      have hdl : (l.drop start.toNat).length = l.length - start.toNat :=
        List.length_drop _ _
      rw [hdl]
      omega
  · have h1 : (min (start + k) (l.length : Int)).toNat = l.length := by omega
    have h2 : (min start (l.length : Int)).toNat = l.length := by omega
    rw [h1, h2]
    have hd1 : l.drop l.length = [] := List.drop_length l
    have hd2 : l.drop start.toNat = [] := by
      apply List.drop_eq_nil_of_le
      omega
    rw [Nat.sub_self, hd1, hd2]
    simp

/-- A supplier fetch failure as `combined_service` sees it: a raised
`HTTPException (status, detail)`. -/
structure SupplierFailure where
  status : Int
  detail : String
deriving Repr, DecidableEq

/-- Outcomes of the two supplier fetches, supplied as an environment: what
each client coroutine would return once awaited (a raw response carrying a
list of native offer identifiers, or a raised failure).  The FlyHub client
module is absent from the repository snapshot, so its outcome is
spec-modelled as a Supplier Client that returns a raw response or fails. -/
structure FetchEnv where
  bdfareOutcome : Except SupplierFailure (List String)
  flyhubOutcome : Except SupplierFailure (List String)
deriving Repr

/-- Modelled from the spec: `format_flight_data_with_ids`
(`app/flight_services/adapters/combined_search.py`, absent from the
snapshot).  Per the spec the Response Adapter turns each supplier raw
response into unified offers tagged with `sourceSupplier`; a supplier slot
holding `None` (a contained failure) contributes zero offers; merge order is
stable concatenation in dispatch order (bdfare before flyhub). -/
def format_flight_data_with_ids
    (bdfareRaw flyhubRaw : Option (List String)) : List Offer :=
  (match bdfareRaw with
    | some ids => ids.map (fun i => ⟨i, "bdfare"⟩)
    | none => []) ++
  (match flyhubRaw with
    | some ids => ids.map (fun i => ⟨i, "flyhub"⟩)
    | none => [])

/-- The message of the `TypeError` raised when `combined_service` calls
`fetch_bdfare_flights(enriched_request_data, page=page, size=size)`:
the imported `bdfare_client.fetch_bdfare_flights` accepts only a single
`payload` parameter, so binding the keyword arguments fails at the call
site, before the coroutine is ever awaited. -/
def bdfareTypeErrorDetail : String :=
  "An unexpected error occurred: fetch_bdfare_flights() got an unexpected keyword argument \x27page\x27"

/-- Embedding of `combined_search` from `combined_service.py`: the outcome
together with the list of suppliers whose search call was actually
dispatched (awaited / gathered).  Faithful points:
  * required-key checks raise `ValueError`, mapped to HTTP 422 with the
    `Validation Error:` prefix, before any dispatch;
  * the `bdfare` and `all` branches construct the bdfare coroutine with
    `page=`/`size=` keyword arguments, which raises `TypeError`
    (see `bdfareTypeErrorDetail`); the generic `except Exception` handler
    maps it to HTTP 500; in the `all` branch this happens before
    `asyncio.gather`, so nothing is dispatched;
  * in the `flyhub` branch a fetch failure (`HTTPException`) is re-raised
    unchanged by the `except HTTPException` handler;
  * an unknown source raises `ValueError` with
    `Invalid source specified: ...`, mapped to HTTP 422. -/
def combined_search (env : FetchEnv) (payload : Payload)
    (page size : Int) : Except SearchErr SearchResult × List String :=
  if !truthy payload.source then
    (.error (.http 422
      "Validation Error: The \x27source\x27 key is missing in the payload."), [])
  else if !truthy payload.pointOfSale then
    (.error (.http 422
      "Validation Error: The \x27pointOfSale\x27 key is missing in the payload."), [])
  else if !truthy payload.request then
    (.error (.http 422
      "Validation Error: The \x27request\x27 key is missing in the payload."), [])
  else if payload.source.getD "" = "bdfare" then
    (.error (.http 500 bdfareTypeErrorDetail), [])
  else if payload.source.getD "" = "flyhub" then
    match env.flyhubOutcome with
    | .error f => (.error (.http f.status f.detail), ["flyhub"])
    | .ok ids =>
        (.ok (paginateResult (format_flight_data_with_ids none (some ids))
          page size), ["flyhub"])
  else if payload.source.getD "" = "all" then
    (.error (.http 500 bdfareTypeErrorDetail), [])
  else
    (.error (.http 422
      ("Validation Error: Invalid source specified: "
        ++ payload.source.getD "")), [])

/-- The module-level FlyHub token cache of
`routes/combined/combined_search.py`:
`cached_token` with token `None` and `expires_at` 0. -/
structure CachedToken where
  token : Option String
  expires_at : Int
deriving Repr, DecidableEq

/-- The refresh condition of `fetch_flyhub_flights`:
`not cached_token["token"] or cached_token["expires_at"] <= loop.time()`. -/
def tokenNeedsRefresh (c : CachedToken) (now : Int) : Bool :=
  !truthy c.token || c.expires_at ≤ now

/-- Successful `authenticate_flyhub`: stores the returned `TokenId` and
`expires_at = now + 3600`. -/
def authenticate_flyhub (newTok : String) (now : Int) : CachedToken :=
  { token := some newTok, expires_at := now + 3600 }

/-- The token-handling step at the top of `fetch_flyhub_flights`: refresh
via `authenticate_flyhub` when the cached credential is absent or not
strictly before expiry, else reuse the cache.  Returns whether authenticate
was invoked, and the cache afterwards. -/
def fetch_flyhub_flights_tokenStep (newTok : String) (c : CachedToken)
    (now : Int) : Bool × CachedToken :=
  if tokenNeedsRefresh c now then (true, authenticate_flyhub newTok now)
  else (false, c)

/-- One concurrent caller of `fetch_flyhub_flights`, by atomic asyncio
segment: `ready` = about to run the cache check (the check and the entry
into `await authenticate_flyhub()` are one synchronous segment, up to the
httpx suspension inside authenticate); `awaitingAuth` = its authenticate
HTTP call is in flight; `doneWith t` = it has built its request headers
reading `cached_token["token"] = t`. -/
inductive CallerPhase where
  | ready
  | awaitingAuth
  | doneWith (usedToken : Option String)
deriving Repr, DecidableEq

/-- Shared state of the cooperative scheduler: the module-level cache, each
phase of each caller, and how many times `authenticate_flyhub` has been
invoked. -/
structure CacheSys where
  cache : CachedToken
  callers : List CallerPhase
  authCalls : Nat
deriving Repr, DecidableEq

/-- Advance caller `i` by one atomic segment.  A `ready` caller runs the
unguarded check of `fetch_flyhub_flights`: if the cache is invalid it
invokes authenticate (counted at invocation) and suspends; if valid it
proceeds with the cached token.  For an `awaitingAuth` caller the authenticate
response arrives: it overwrites the shared cache and synchronously builds
headers from the token it just stored.  There is no lock anywhere in the
source. -/
def stepCaller (newTok : String) (now : Int) (s : CacheSys) (i : Nat) :
    CacheSys :=
  match s.callers[i]? with
  | none => s
  | some .ready =>
      if tokenNeedsRefresh s.cache now then
        { s with callers := s.callers.set i .awaitingAuth
                 authCalls := s.authCalls + 1 }
      else
        { s with callers := s.callers.set i (.doneWith s.cache.token) }
  | some .awaitingAuth =>
      let c := authenticate_flyhub newTok now
      { cache := c
        callers := s.callers.set i (.doneWith c.token)
        authCalls := s.authCalls }
  | some (.doneWith _) => s

/-- Run a cooperative schedule: at each step the named caller advances by
one atomic segment. -/
def runSched (newTok : String) (now : Int) (s : CacheSys) :
    List Nat → CacheSys
  | [] => s
  | i :: rest => runSched newTok now (stepCaller newTok now s i) rest

/-- The outbound mechanisms a bdfare search can use: the primary httpx
call, the `requests`-library fallback of `bdfare_client.py`, and the curl
subprocess fallback of `routes/bdfare/search.py`. -/
inductive Mechanism where
  | httpx
  | requestsLib
  | curl
deriving Repr, DecidableEq

/-- What one outbound attempt comes back with: an HTTP response with a
status code and body, or a raised exception (transport error, timeout,
subprocess failure). -/
inductive HttpAttempt where
  | status (code : Int) (body : String)
  | exn (msg : String)
deriving Repr, DecidableEq

/-- The environment for `bdfare_client.fetch_bdfare_flights`: what its
httpx attempt and (if reached) its `requests` fallback attempt would come
back with. -/
structure BdfareClientEnv where
  httpxAttempt : HttpAttempt
  requestsAttempt : HttpAttempt
deriving Repr, DecidableEq

/-- Embedding of `fallback_to_requests` from `bdfare_client.py`: one outbound call via
the `requests` library; `raise_for_status` turns a 4xx/5xx into an
`HTTPException` with that status; a `RequestException` becomes HTTP 500.
Returns the outcome and the outbound mechanisms used. -/
def fallback_to_requests (att : HttpAttempt) :
    Except SupplierFailure String × List Mechanism :=
  match att with
  | .status code body =>
      if 400 ≤ code then
        (.error ⟨code, "HTTP request failed: " ++ body⟩, [.requestsLib])
      else (.ok body, [.requestsLib])
  | .exn m =>
      (.error ⟨500, "Network or request error during API call: " ++ m⟩,
       [.requestsLib])

/-- Embedding of `bdfare_client.fetch_bdfare_flights`: one httpx POST; a 200 returns its
JSON; a non-200 raises `HTTPException` *inside* the `try`, so the
`except Exception` clause catches it and — like any httpx exception —
falls back to `fallback_to_requests`, a second outbound call.  Returns the
outcome and the trace of outbound mechanisms used. -/
def fetch_bdfare_flights_client (env : BdfareClientEnv) :
    Except SupplierFailure String × List Mechanism :=
  match env.httpxAttempt with
  | .status code body =>
      if code = 200 then (.ok body, [.httpx])
      else
        let r := fallback_to_requests env.requestsAttempt
        (r.1, .httpx :: r.2)
  | .exn _ =>
      let r := fallback_to_requests env.requestsAttempt
      (r.1, .httpx :: r.2)

/-- Embedding of `search_flights` from `routes/bdfare/search.py`: one httpx POST; a 200
returns the data; a non-200 raises `HTTPException`, which propagates (the
only `except` clause is `httpx.RequestError`) — no fallback; a transport
error triggers the curl subprocess fallback, a second outbound call. -/
def search_flights (httpxAtt curlAtt : HttpAttempt) :
    Except SupplierFailure String × List Mechanism :=
  match httpxAtt with
  | .status code body =>
      if code = 200 then (.ok body, [.httpx])
      else (.error ⟨code, "BDFare API error: " ++ body⟩, [.httpx])
  | .exn _ =>
      match curlAtt with
      | .status _ body => (.ok body, [.httpx, .curl])
      | .exn m =>
          (.error ⟨500, "Curl command failed: " ++ m⟩, [.httpx, .curl])

/-- A sample merged offer sequence used by concrete witnesses. -/
def demoMerged : List Offer :=
  [⟨"bd-1", "bdfare"⟩, ⟨"bd-2", "bdfare"⟩, ⟨"fh-1", "flyhub"⟩]

/-- C1: for every merged offer sequence `M` reaching the merge step and
every `page ≥ 1`, `size ≥ 1`, the pagination step of `combined_search`
reports `total_flights = |M|` (before pagination) and returns exactly the
slice `M[(page-1)*size : (page-1)*size + size]` clamped to the bounds of
`M`; hence the flights list has length at most `size` and is empty as soon
as `(page-1)*size ≥ |M|`, while `total_flights` stays the full merged
length. -/
theorem merge_pagination_slice_spec (merged : List Offer) (page size : Int)
    (hp : 1 ≤ page) (hs : 1 ≤ size) :
    (paginateResult merged page size).total_flights = merged.length ∧
    (paginateResult merged page size).flights
      = (merged.drop ((page - 1) * size).toNat).take size.toNat ∧
    (paginateResult merged page size).flights.length ≤ size.toNat ∧
    ((merged.length : Int) ≤ (page - 1) * size →
      (paginateResult merged page size).flights = []) := by
  have hstart : 0 ≤ (page - 1) * size :=
    mul_nonneg (by omega) (by omega)
  have hsz : (0:Int) ≤ size := by omega
  have hflights : (paginateResult merged page size).flights
      = (merged.drop ((page - 1) * size).toNat).take size.toNat := by
    show pythonSlice merged ((page - 1) * size) ((page - 1) * size + size)
        = (merged.drop ((page - 1) * size).toNat).take size.toNat
    exact pythonSlice_nonneg merged _ size hstart hsz
  refine ⟨rfl, hflights, ?_, ?_⟩
  · rw [hflights]
    exact List.length_take_le _ _
  · intro hbig
    rw [hflights]
    have : merged.drop ((page - 1) * size).toNat = [] := by
      apply List.drop_eq_nil_of_le
      omega
    rw [this, List.take_nil]

/-- Witness for C1 at `M = demoMerged`, `page = 2`, `size = 2`. -/
theorem merge_pagination_slice_spec_witness :
    (1:Int) ≤ 2 ∧ (1:Int) ≤ 2 ∧
    ((paginateResult demoMerged 2 2).total_flights = demoMerged.length ∧
     (paginateResult demoMerged 2 2).flights
       = (demoMerged.drop (((2:Int) - 1) * 2).toNat).take (2:Int).toNat ∧
     (paginateResult demoMerged 2 2).flights.length ≤ (2:Int).toNat ∧
     ((demoMerged.length : Int) ≤ ((2:Int) - 1) * 2 →
       (paginateResult demoMerged 2 2).flights = [])) :=
  ⟨by decide, by decide,
   merge_pagination_slice_spec demoMerged 2 2 (by decide) (by decide)⟩

/-- Concrete environment: FlyHub succeeds with two offers, BDFare fails. -/
def partialSuccessEnv : FetchEnv :=
  { bdfareOutcome := .error ⟨502, "BDFare upstream error"⟩
    flyhubOutcome := .ok ["fh-1", "fh-2"] }

/-- Concrete environment: both suppliers fail. -/
def allFailEnv : FetchEnv :=
  { bdfareOutcome := .error ⟨502, "BDFare upstream error"⟩
    flyhubOutcome := .error ⟨503, "FlyHub upstream error"⟩ }

/-- Concrete environment: FlyHub succeeds with two offers (bdfare slot
failing, irrelevant to the flyhub branch). -/
def flyhubOkEnv : FetchEnv :=
  { bdfareOutcome := .error ⟨502, "BDFare upstream error"⟩
    flyhubOutcome := .ok ["fh-1", "fh-2"] }

/-- A well-formed payload selecting both suppliers. -/
def allSourcePayload : Payload := ⟨some "all", some "BD", some "req"⟩

/-- A well-formed payload selecting FlyHub only. -/
def flyhubSourcePayload : Payload := ⟨some "flyhub", some "BD", some "req"⟩

/-- C2 (code bug evaluation): with `source = "all"`, FlyHub succeeding with
2 offers and BDFare failing, `combined_search` does not return HTTP 200
with those 2 offers: constructing the bdfare coroutine with `page=`/`size=`
keyword arguments raises `TypeError` before `asyncio.gather`, and the
generic handler maps it to HTTP 500 with no supplier dispatched. -/
theorem all_branch_typeerror_on_partial_success :
    combined_search partialSuccessEnv allSourcePayload 1 50
      = (.error (.http 500 bdfareTypeErrorDetail), []) := rfl

/-- C3 (counterexample): with every targeted supplier failing, the claim
"fails with AllSuppliersFailedError and no UnifiedSearchResult" is false:
the code has no such error — with `source = "all"` the request fails with
the HTTP 500 TypeError, and with `source = "flyhub"` the own
`HTTPException` of the supplier (status 503) is re-raised unchanged. -/
theorem no_all_suppliers_failed_error_counterexample :
    combined_search allFailEnv allSourcePayload 1 50
      = (.error (.http 500 bdfareTypeErrorDetail), []) ∧
    combined_search allFailEnv flyhubSourcePayload 1 50
      = (.error (.http 503 "FlyHub upstream error"), ["flyhub"]) :=
  ⟨rfl, rfl⟩

/-- C3 (amended): when all targeted suppliers fail, `combined_search`
raises an `HTTPException`, never an `AllSuppliersFailedError` (absent from
the code): with `source = "flyhub"` the failure of the supplier (status, detail)
is re-raised unchanged after the dispatch; with `source = "all"` the
request fails with HTTP 500 from the TypeError at the bdfare call, before
any dispatch.  In both cases no `UnifiedSearchResult` is produced. -/
theorem all_suppliers_failed_behavior (env : FetchEnv) (payload : Payload)
    (page size : Int) (f : SupplierFailure)
    (hpos : truthy payload.pointOfSale = true)
    (hreq : truthy payload.request = true) :
    (payload.source = some "flyhub" → env.flyhubOutcome = .error f →
      combined_search env payload page size
        = (.error (.http f.status f.detail), ["flyhub"])) ∧
    (payload.source = some "all" →
      combined_search env payload page size
        = (.error (.http 500 bdfareTypeErrorDetail), [])) := by
  constructor
  · intro hsrc hfly
    unfold combined_search
    rw [hsrc, hpos, hreq, hfly]
    rfl
  · intro hsrc
    unfold combined_search
    rw [hsrc, hpos, hreq]
    rfl

/-- Witness for the amended C3 at a concrete failing environment. -/
theorem all_suppliers_failed_behavior_witness :
    truthy flyhubSourcePayload.pointOfSale = true ∧
    truthy flyhubSourcePayload.request = true ∧
    ((flyhubSourcePayload.source = some "flyhub" →
        allFailEnv.flyhubOutcome
          = .error (⟨503, "FlyHub upstream error"⟩ : SupplierFailure) →
        combined_search allFailEnv flyhubSourcePayload 1 50
          = (.error (.http (⟨503, "FlyHub upstream error"⟩ :
                SupplierFailure).status
              (⟨503, "FlyHub upstream error"⟩ : SupplierFailure).detail),
             ["flyhub"])) ∧
     (flyhubSourcePayload.source = some "all" →
        combined_search allFailEnv flyhubSourcePayload 1 50
          = (.error (.http 500 bdfareTypeErrorDetail), []))) :=
  ⟨by decide, by decide,
   all_suppliers_failed_behavior allFailEnv flyhubSourcePayload 1 50
     ⟨503, "FlyHub upstream error"⟩ (by decide) (by decide)⟩

/-- Offers contained in a Python slice of a list belong to that list. -/
theorem mem_pythonSlice {α : Type} {l : List α} {a : α} {s e : Int}
    (h : a ∈ pythonSlice l s e) : a ∈ l := by
  unfold pythonSlice at h
  exact List.take_subset _ _ (List.drop_subset _ _ h)

/-- C4: for every payload passing key validation with `source = "bdfare"`
or `source = "all"`, `combined_search` fails with the HTTP 500 mapped
TypeError — the imported `fetch_bdfare_flights` accepts only `payload`,
while the call passes `page=`/`size=` — with no supplier dispatched; and
no successful result of `combined_search` ever contains a BDFare offer
(every returned offer is tagged `flyhub`). -/
theorem bdfare_call_typeerror_http500 (env : FetchEnv) (payload : Payload)
    (page size : Int)
    (hsrc : payload.source = some "bdfare" ∨ payload.source = some "all")
    (hpos : truthy payload.pointOfSale = true)
    (hreq : truthy payload.request = true) :
    combined_search env payload page size
      = (.error (.http 500 bdfareTypeErrorDetail), []) ∧
    ∀ (env2 : FetchEnv) (p2 : Payload) (pg sz : Int) (r : SearchResult),
      (combined_search env2 p2 pg sz).1 = .ok r →
      ∀ o ∈ r.flights, o.sourceSupplier = "flyhub" := by
  constructor
  · rcases hsrc with h | h <;> (unfold combined_search; rw [h, hpos, hreq]) <;> rfl
  · intro env2 p2 pg sz r hok o ho
    unfold combined_search at hok
    by_cases c1 : (!truthy p2.source) = true
    · rw [if_pos c1] at hok
      exact absurd hok (by simp)
    rw [if_neg c1] at hok
    by_cases c2 : (!truthy p2.pointOfSale) = true
    · rw [if_pos c2] at hok
      exact absurd hok (by simp)
    rw [if_neg c2] at hok
    by_cases c3 : (!truthy p2.request) = true
    · rw [if_pos c3] at hok
      exact absurd hok (by simp)
    rw [if_neg c3] at hok
    by_cases c4 : p2.source.getD "" = "bdfare"
    · rw [if_pos c4] at hok
      exact absurd hok (by simp)
    rw [if_neg c4] at hok
    by_cases c5 : p2.source.getD "" = "flyhub"
    · rw [if_pos c5] at hok
      rcases hfo : env2.flyhubOutcome with f | ids <;> rw [hfo] at hok
      · exact absurd hok (by simp)
      · simp only [Except.ok.injEq] at hok
        subst hok
        have hmem : o ∈ format_flight_data_with_ids none (some ids) :=
          mem_pythonSlice ho
        simp only [format_flight_data_with_ids, List.nil_append] at hmem
        rcases List.mem_map.mp hmem with ⟨i, hi, hoi⟩
        rw [← hoi]
    rw [if_neg c5] at hok
    by_cases c6 : p2.source.getD "" = "all"
    · rw [if_pos c6] at hok
      exact absurd hok (by simp)
    · rw [if_neg c6] at hok
      exact absurd hok (by simp)

/-- Witness for C4 at a concrete well-keyed payload selecting bdfare. -/
theorem bdfare_call_typeerror_http500_witness :
    ((⟨some "bdfare", some "BD", some "req"⟩ : Payload).source
        = some "bdfare" ∨
     (⟨some "bdfare", some "BD", some "req"⟩ : Payload).source
        = some "all") ∧
    truthy (⟨some "bdfare", some "BD", some "req"⟩ : Payload).pointOfSale
      = true ∧
    truthy (⟨some "bdfare", some "BD", some "req"⟩ : Payload).request
      = true ∧
    (combined_search flyhubOkEnv ⟨some "bdfare", some "BD", some "req"⟩ 1 50
        = (.error (.http 500 bdfareTypeErrorDetail), []) ∧
     ∀ (env2 : FetchEnv) (p2 : Payload) (pg sz : Int) (r : SearchResult),
       (combined_search env2 p2 pg sz).1 = .ok r →
       ∀ o ∈ r.flights, o.sourceSupplier = "flyhub") :=
  ⟨Or.inl rfl, by decide, by decide,
   bdfare_call_typeerror_http500 flyhubOkEnv
     ⟨some "bdfare", some "BD", some "req"⟩ 1 50 (Or.inl rfl)
     (by decide) (by decide)⟩

/-- C5: a well-keyed payload whose `source` is none of `bdfare`, `flyhub`,
`all` is rejected before any dispatch with HTTP 422, and the detail
mentions the text `Invalid source specified: <source>`. -/
theorem invalid_source_422 (env : FetchEnv) (payload : Payload)
    (page size : Int) (s : String)
    (hsrc : payload.source = some s) (hne : s.isEmpty = false)
    (h1 : s ≠ "bdfare") (h2 : s ≠ "flyhub") (h3 : s ≠ "all")
    (hpos : truthy payload.pointOfSale = true)
    (hreq : truthy payload.request = true) :
    combined_search env payload page size
      = (.error (.http 422
          ("Validation Error: Invalid source specified: " ++ s)), []) ∧
    ∃ a b : String,
      "Validation Error: Invalid source specified: " ++ s
        = a ++ ("Invalid source specified: " ++ s) ++ b := by
  constructor
  · have hts : truthy (some s) = true := by
      simp only [truthy, hne, Bool.not_false]
    unfold combined_search
    rw [hsrc, hts, hpos, hreq]
    simp [h1, h2, h3]
  · refine ⟨"Validation Error: ", "", ?_⟩
    rw [String.append_empty, ← String.append_assoc]
    congr 1

/-- Witness for C5 at `source = "xyz"`. -/
theorem invalid_source_422_witness :
    (⟨some "xyz", some "BD", some "req"⟩ : Payload).source = some "xyz" ∧
    ("xyz".isEmpty = false) ∧
    (combined_search flyhubOkEnv ⟨some "xyz", some "BD", some "req"⟩ 1 50
      = (.error (.http 422
          ("Validation Error: Invalid source specified: " ++ "xyz")), []) ∧
     ∃ a b : String,
       "Validation Error: Invalid source specified: " ++ "xyz"
         = a ++ ("Invalid source specified: " ++ "xyz") ++ b) :=
  ⟨rfl, by decide,
   invalid_source_422 flyhubOkEnv ⟨some "xyz", some "BD", some "req"⟩ 1 50
     "xyz" rfl (by decide) (by decide) (by decide) (by decide)
     (by decide) (by decide)⟩

/-- Look a required key up in the payload, for stating which key a
validation message names. -/
def payloadField (p : Payload) : String → Option String
  | "source" => p.source
  | "pointOfSale" => p.pointOfSale
  | "request" => p.request
  | _ => none

/-- C6: a payload with a missing (falsy) required key is rejected before
any dispatch with HTTP 422 and a message naming a required key that is
indeed missing (the first of `source`, `pointOfSale`, `request` in check
order). -/
theorem missing_key_422 (env : FetchEnv) (payload : Payload)
    (page size : Int)
    (h : ¬ (truthy payload.source = true ∧ truthy payload.pointOfSale = true
            ∧ truthy payload.request = true)) :
    ∃ k, k ∈ (["source", "pointOfSale", "request"] : List String) ∧
      truthy (payloadField payload k) = false ∧
      combined_search env payload page size
        = (.error (.http 422 ("Validation Error: The \x27" ++ k
            ++ "\x27 key is missing in the payload.")), []) := by
  by_cases h1 : truthy payload.source = true
  · by_cases h2 : truthy payload.pointOfSale = true
    · have h3 : truthy payload.request = false := by
        cases hr : truthy payload.request
        · rfl
        · exact absurd ⟨h1, h2, hr⟩ h
      refine ⟨"request", by decide, ?_, ?_⟩
      · exact h3
      · unfold combined_search
        rw [h1, h2, h3]
        rfl
    · have h2f : truthy payload.pointOfSale = false := by
        cases hr : truthy payload.pointOfSale
        · rfl
        · exact absurd hr h2
      refine ⟨"pointOfSale", by decide, ?_, ?_⟩
      · exact h2f
      · unfold combined_search
        rw [h1, h2f]
        rfl
  · have h1f : truthy payload.source = false := by
      cases hr : truthy payload.source
      · rfl
      · exact absurd hr h1
    refine ⟨"source", by decide, ?_, ?_⟩
    · exact h1f
    · unfold combined_search
      rw [h1f]
      rfl

/-- Witness for C6 at a payload missing `pointOfSale`. -/
theorem missing_key_422_witness :
    (¬ (truthy (⟨some "all", none, some "req"⟩ : Payload).source = true ∧
        truthy (⟨some "all", none, some "req"⟩ : Payload).pointOfSale = true ∧
        truthy (⟨some "all", none, some "req"⟩ : Payload).request = true)) ∧
    ∃ k, k ∈ (["source", "pointOfSale", "request"] : List String) ∧
      truthy (payloadField (⟨some "all", none, some "req"⟩ : Payload) k)
        = false ∧
      combined_search flyhubOkEnv (⟨some "all", none, some "req"⟩ : Payload)
          1 50
        = (.error (.http 422 ("Validation Error: The \x27" ++ k
            ++ "\x27 key is missing in the payload.")), []) :=
  ⟨by decide,
   missing_key_422 flyhubOkEnv ⟨some "all", none, some "req"⟩ 1 50
     (by decide)⟩

/-- C7 (counterexample): at `page = 0` (< 1) with a valid FlyHub payload,
no 422 validation failure occurs: the supplier is dispatched and a normal
HTTP 200 result is returned (empty flights, full `total_flights`). -/
theorem page_zero_no_validation_counterexample :
    combined_search flyhubOkEnv flyhubSourcePayload 0 50
      = (.ok { page := 0, size := 50, total_flights := 2, flights := [] },
         ["flyhub"]) := rfl

/-- C7 (amended): the service performs no validation of `page` or
`size`: for `page < 1` or `size < 1` the request still dispatches the
supplier and returns the normally paginated result (Python slice
semantics, where a negative start counts from the end of the list). -/
theorem no_page_size_validation (env : FetchEnv) (payload : Payload)
    (page size : Int) (ids : List String)
    (hsrc : payload.source = some "flyhub")
    (hpos : truthy payload.pointOfSale = true)
    (hreq : truthy payload.request = true)
    (hfly : env.flyhubOutcome = .ok ids)
    (_hbad : page < 1 ∨ size < 1) :
    combined_search env payload page size
      = (.ok (paginateResult (format_flight_data_with_ids none (some ids))
               page size), ["flyhub"]) := by
  unfold combined_search
  rw [hsrc, hpos, hreq, hfly]
  rfl

/-- Witness for the amended C7 at `page = 0`, `size = 50`. -/
theorem no_page_size_validation_witness :
    flyhubSourcePayload.source = some "flyhub" ∧
    flyhubOkEnv.flyhubOutcome = .ok ["fh-1", "fh-2"] ∧
    ((0:Int) < 1 ∨ (50:Int) < 1) ∧
    combined_search flyhubOkEnv flyhubSourcePayload 0 50
      = (.ok (paginateResult
               (format_flight_data_with_ids none (some ["fh-1", "fh-2"]))
               0 50), ["flyhub"]) :=
  ⟨rfl, rfl, Or.inl (by decide),
   no_page_size_validation flyhubOkEnv flyhubSourcePayload 0 50
     ["fh-1", "fh-2"] rfl (by decide) (by decide) rfl
     (Or.inl (by decide))⟩

/-- C8: the cached FlyHub credential is considered valid iff the current
time is strictly below its stored expiry; `fetch_flyhub_flights` invokes
`authenticate_flyhub` exactly when the token is absent (falsy) or that
check fails, and a valid credential is reused with the cache unchanged. -/
theorem flyhub_token_validity_refresh (newTok : String) (c : CachedToken)
    (now : Int) :
    ((fetch_flyhub_flights_tokenStep newTok c now).1 = true ↔
      ¬ (truthy c.token = true ∧ now < c.expires_at)) ∧
    ((fetch_flyhub_flights_tokenStep newTok c now).1 = false →
      (fetch_flyhub_flights_tokenStep newTok c now).2 = c) := by
  have hcond : tokenNeedsRefresh c now = true ↔
      ¬ (truthy c.token = true ∧ now < c.expires_at) := by
    unfold tokenNeedsRefresh
    cases h : truthy c.token <;> simp
  unfold fetch_flyhub_flights_tokenStep
  by_cases h : tokenNeedsRefresh c now = true
  · refine ⟨?_, ?_⟩
    · rw [if_pos h]
      simpa using hcond.mp h
    · rw [if_pos h]
      intro hfalse
      simp at hfalse
  · refine ⟨?_, ?_⟩
    · rw [if_neg h]
      constructor
      · intro hfalse
        simp at hfalse
      · intro hcon
        exact absurd (hcond.mpr hcon) h
    · intro _
      rw [if_neg h]

/-- Witness for C8 at a concrete valid cached credential. -/
theorem flyhub_token_validity_refresh_witness :
    ((fetch_flyhub_flights_tokenStep "t" ⟨some "tok", 100⟩ 50).1 = true ↔
      ¬ (truthy (some "tok") = true ∧ (50:Int) < 100)) ∧
    ((fetch_flyhub_flights_tokenStep "t" ⟨some "tok", 100⟩ 50).1 = false →
      (fetch_flyhub_flights_tokenStep "t" ⟨some "tok", 100⟩ 50).2
        = ⟨some "tok", 100⟩) :=
  flyhub_token_validity_refresh "t" ⟨some "tok", 100⟩ 50

/-- Initial shared state for the concurrency scenario: the module-level
cache holds no token and expiry 0, two concurrent
callers are about to run the check at time 100, no authenticate call has
happened. -/
def initialCacheSys : CacheSys :=
  { cache := { token := none, expires_at := 0 }
    callers := [.ready, .ready]
    authCalls := 0 }

/-- C9 (counterexample): with an absent credential and `T = 2` concurrent
callers, the cooperative schedule in which both callers run their cache
check before either refresh completes (caller 0 checks, caller 1 checks,
then both authenticate responses arrive) invokes `authenticate_flyhub`
twice — there is no critical section, so "authenticate is invoked exactly
once" is false. -/
theorem duplicate_refresh_counterexample :
    (runSched "tok" 100 initialCacheSys [0, 1, 0, 1]).authCalls = 2 := rfl

/-- C9 (amended): each caller that runs its check while the shared cache is
still invalid invokes `authenticate_flyhub` itself; with two concurrent
callers interleaved at the await point the refresh runs twice, and only
under the serialized schedule (caller 0 checks and completes its refresh
before caller 1 checks) is authenticate invoked exactly once, with both
callers then observing the same cached token. -/
theorem refresh_once_only_if_serialized :
    (runSched "tok" 100 initialCacheSys [0, 0, 1, 1]).authCalls = 1 ∧
    (runSched "tok" 100 initialCacheSys [0, 0, 1, 1]).callers
      = [.doneWith (some "tok"), .doneWith (some "tok")] ∧
    (runSched "tok" 100 initialCacheSys [0, 1, 0, 1]).authCalls = 2 :=
  ⟨rfl, rfl, rfl⟩

/-- Concrete environment where the httpx attempt of the BDFare client fails
with a transport error and the `requests` fallback succeeds. -/
def httpxDownEnv : BdfareClientEnv :=
  { httpxAttempt := .exn "ConnectTimeout"
    requestsAttempt := .status 200 "raw-body" }

/-- C10 (counterexample): when the primary httpx mechanism fails,
`bdfare_client.fetch_bdfare_flights` performs a second outbound attempt via
the `requests` library within the same invocation — two outbound calls, so
"exactly one outbound HTTP call and never a fallback" is false. -/
theorem two_outbound_calls_counterexample :
    (fetch_bdfare_flights_client httpxDownEnv).2
      = [.httpx, .requestsLib] ∧
    (fetch_bdfare_flights_client httpxDownEnv).2.length ≠ 1 :=
  ⟨rfl, by decide⟩

/-- C10 (amended): the client `fetch_bdfare_flights` makes exactly one
outbound call only when its httpx attempt returns HTTP 200; on any httpx
exception or non-200 response it makes a second outbound call via the
`requests` library.  The bdfare route `search_flights` makes one httpx call
when it gets any HTTP response (a non-200 propagates without fallback) and
falls back to a second outbound curl call exactly when the httpx attempt
raises a transport error. -/
theorem outbound_call_trace (env : BdfareClientEnv)
    (curlAtt : HttpAttempt) :
    (fetch_bdfare_flights_client env).2
      = (match env.httpxAttempt with
         | .status code _ =>
             if code = 200 then [Mechanism.httpx]
             else [Mechanism.httpx, Mechanism.requestsLib]
         | .exn _ => [Mechanism.httpx, Mechanism.requestsLib]) ∧
    (search_flights env.httpxAttempt curlAtt).2
      = (match env.httpxAttempt with
         | .status _ _ => [Mechanism.httpx]
         | .exn _ => [Mechanism.httpx, Mechanism.curl]) := by
  obtain ⟨ha, hrq⟩ := env
  constructor
  · cases ha with
    | status code body =>
        by_cases hc : code = 200
        · simp [fetch_bdfare_flights_client, hc]
        · simp only [fetch_bdfare_flights_client, if_neg hc]
          cases hrq with
          | status c2 b2 =>
              by_cases h4 : (400:Int) ≤ c2 <;>
                simp [fallback_to_requests, h4]
          | exn m => simp [fallback_to_requests]
    | exn m =>
        cases hrq with
        | status c2 b2 =>
            by_cases h4 : (400:Int) ≤ c2 <;>
              simp [fetch_bdfare_flights_client, fallback_to_requests, h4]
        | exn m2 =>
            simp [fetch_bdfare_flights_client, fallback_to_requests]
  · cases ha with
    | status code body =>
        by_cases hc : code = 200 <;> simp [search_flights, hc]
    | exn m =>
        cases curlAtt with
        | status c2 b2 => simp [search_flights]
        | exn m2 => simp [search_flights]

end TravelApi
